import Mathlib

/-!
Shallow embedding of `server_edited.py`: the token-cached authenticated
HTTP proxy for the Dimensions API, and the mock prediction endpoint.

Conventions of the embedding:
* Clock values and the TTL arithmetic are machine floats in the source but
  whole seconds in every scenario of the spec and of the unit tests; they
  are modelled as integers, on which float and exact arithmetic agree (the
  cache logic only adds and compares times). Numeric JSON values (the
  confidence constants) are modelled as exact rationals.
* Python exceptions are values of `PyExc`; fallible code returns `Except`.
* The network boundary (`urllib.request.urlopen`) is modelled by a scripted
  fake `Net` that logs every outgoing request and answers the n-th request
  from its script, exactly as the stub clients in the unit tests do.
* An HTTP response body string is modelled by its JSON parse status
  (`BodyText`): either text that parses to a JSON value, or text on which
  `json.loads` raises `JSONDecodeError`.
* The injected clock `time_func` is a constant function in every test of
  the repository, so one value `now` per call models it.
-/

namespace ServerEdited

/-- A JSON value, as produced by the Python `json.loads`. -/
inductive Json where
  | null
  | bool (b : Bool)
  | num (q : ℚ)
  | str (s : String)
  | arr (elems : List Json)
  | obj (fields : List (String × Json))

/-- Python truthiness of a JSON value, `bool(x)`. -/
def Json.truthy : Json → Bool
  | .null => false
  | .bool b => b
  | .num q => q != 0
  | .str s => s != ""
  | .arr elems => !elems.isEmpty
  | .obj fields => !fields.isEmpty

/-- Python `str(x)` of a JSON value. Scalar cases follow CPython exactly
(for integral numbers); container rendering (repr-based in CPython) is
abbreviated — no code path under verification stringifies a container. -/
def Json.pyStr : Json → String
  | .null => "None"
  | .bool true => "True"
  | .bool false => "False"
  | .num q => toString q
  | .str s => s
  | .arr _ => "<list>"
  | .obj _ => "<dict>"

/-- `d.get(key)` on a parsed JSON object: `json.loads` keeps the last
occurrence of a duplicated key and `dict.get` returns `None` when the key
is absent. -/
def jsonGet (fields : List (String × Json)) (key : String) : Json :=
  match fields.reverse.find? (fun p => p.1 == key) with
  | some p => p.2
  | none => Json.null

/-- Whether a parsed JSON object binds `key`. -/
def hasKey (fields : List (String × Json)) (key : String) : Bool :=
  fields.any (fun p => p.1 == key)

/-- An HTTP response body string, represented by its JSON parse status:
`jsonText v` stands for text that `json.loads` parses to `v`, and
`rawText s` for text on which `json.loads` raises `JSONDecodeError`. -/
inductive BodyText where
  | jsonText (v : Json)
  | rawText (s : String)

/-- The `payload` argument of `_http_post` (lines 32–45 of the source):
a dict or list is JSON-encoded and gets an automatic `Content-Type`
header, a string is sent raw, `None` sends no body, bytes are sent
as-is. -/
inductive Payload where
  | none
  | str (s : String)
  | jsonVal (v : Json)
  | bytes (bs : List Nat)

/-- The observable data of one outgoing `urllib.request.Request`. -/
structure HttpCall where
  url : String
  payload : Payload
  headers : List (String × String)
  timeout : Nat

/-- What `urlopen` does for one request: a success body, an `HTTPError`
carrying a status code and a body, or a `URLError` carrying a reason. -/
inductive NetResult where
  | ok (body : BodyText)
  | httpError (code : Nat) (body : String)
  | urlError (reason : String)

/-- A scripted fake network: answers the n-th request (0-based) from
`script` and logs every request. -/
structure Net where
  script : Nat → NetResult
  log : List HttpCall

/-- The Python exceptions raised by the code under verification.
`DimensionsServiceError` subclasses `RuntimeError` in the source; the
handlers always match it first, so a separate constructor preserves the
`except` clause order. `attributeError` carries the missing attribute. -/
inductive PyExc where
  | dimensionsServiceError (status : Nat) (body : String)
  | runtimeError (msg : String)
  | attributeError (attr : String)

/-- Python `str(exc)`. For `DimensionsServiceError` the constructor sets
the message to `HTTP <status>: <body>` (line 23). The message of an
`AttributeError` is abbreviated to the attribute name. -/
def PyExc.pyStr : PyExc → String
  | .dimensionsServiceError status body => "HTTP " ++ toString status ++ ": " ++ body
  | .runtimeError msg => msg
  | .attributeError attr => "object has no attribute " ++ attr

/-- Default auth endpoint URL (line 14; the environment override keeps the
same role, so the default stands for whatever URL is configured). -/
def DIMENSIONS_AUTH_URL : String := "https://app.dimensions.ai/api/auth"

/-- Default DSL endpoint URL (line 15). -/
def DIMENSIONS_DSL_URL : String := "https://app.dimensions.ai/api/dsl/v2"

/-- Python `dict.update` on string-keyed dicts viewed as ordered
association lists: existing keys keep their position and take the new
value, new keys are appended in their own order. -/
def dictUpdate (base extra : List (String × String)) : List (String × String) :=
  base.map (fun p =>
    match extra.find? (fun q => q.1 == p.1) with
    | some q => (p.1, q.2)
    | none => p)
  ++ extra.filter (fun q => !(base.any (fun p => p.1 == q.1)))

/-- Header construction of `_http_post` (lines 32–48): a dict or list
payload adds `Content-Type: application/json`, then the caller headers are
merged over the defaults. -/
def requestHeaders (payload : Payload) (headers : List (String × String)) :
    List (String × String) :=
  let req_headers := match payload with
    | .jsonVal _ => [("Content-Type", "application/json")]
    | _ => []
  dictUpdate req_headers headers

/-- `_http_post` (lines 28–60) run against a scripted network: builds the
request, performs it, and translates `HTTPError` into
`DimensionsServiceError` and `URLError` into `RuntimeError`, returning the
decoded body text on success. -/
def http_post (net : Net) (url : String) (payload : Payload)
    (headers : List (String × String)) (timeout : Nat) :
    Except PyExc BodyText × Net :=
  let req : HttpCall := ⟨url, payload, requestHeaders payload headers, timeout⟩
  let result := net.script net.log.length
  let net' : Net := { net with log := net.log ++ [req] }
  match result with
  | .ok body => (.ok body, net')
  | .httpError code body => (.error (.dimensionsServiceError code body), net')
  | .urlError reason =>
      (.error (.runtimeError ("Network error contacting " ++ url ++ ": " ++ reason)), net')

/-- The module-level token cache `_DIMENSIONS_TOKEN_CACHE` (line 16):
`token` starts as `None` and afterwards holds whatever JSON value the auth
response bound to the key `token`; `expires_at` starts at `0.0`. -/
structure TokenCache where
  token : Option Json
  expires_at : ℤ

/-- The initial cache state (line 16). -/
def initialCache : TokenCache := { token := none, expires_at := 0 }

/-- Token lifetime stored on a refresh: 50 minutes (line 99). -/
def TOKEN_TTL : ℤ := 50 * 60

/-- Truthiness of `os.environ.get(...)`: `None` and the empty string are
falsy. -/
def envTruthy : Option String → Bool
  | Option.none => false
  | Option.some s => s != ""

/-- The cache-hit test of line 82: `token and time_func() < expires_at`. -/
def cachedTokenLive (cache : TokenCache) (now : ℤ) : Bool :=
  match cache.token with
  | Option.some t => t.truthy && decide (now < cache.expires_at)
  | Option.none => false

/-- `_get_dimensions_token` (lines 63–100). `apiKey` is
`os.environ.get("DIMENSIONS_API_KEY")`; `now` is the value the injected
`time_func` returns. The token is returned exactly as in the source: the
raw JSON value after a refresh (line 100), `str(token)` on a cache hit
(line 83). On a refresh the response is parsed; a body that is valid JSON
but not an object makes `.get` raise `AttributeError` (line 92), which is
not caught there. -/
def get_dimensions_token (apiKey : Option String) (now : ℤ) (net : Net)
    (cache : TokenCache) : Except PyExc Json × TokenCache × Net :=
  if !envTruthy apiKey then
    (.error (.runtimeError "Dimensions API key is not configured. Set DIMENSIONS_API_KEY."),
     cache, net)
  else if cachedTokenLive cache now then
    (.ok (Json.str ((cache.token.getD Json.null).pyStr)), cache, net)
  else
    match http_post net DIMENSIONS_AUTH_URL
        (.jsonVal (.obj [("key", .str (apiKey.getD ""))])) [] 10 with
    | (.error (.dimensionsServiceError status body), net') =>
        (.error (.runtimeError ("Dimensions authentication failed with status "
          ++ toString status ++ ": " ++ body)), cache, net')
    | (.error e, net') => (.error e, cache, net')
    | (.ok (.rawText _), net') =>
        (.error (.runtimeError "Dimensions authentication returned invalid JSON."),
         cache, net')
    | (.ok (.jsonText (.obj fields)), net') =>
        let token := jsonGet fields "token"
        if !token.truthy then
          (.error (.runtimeError "Dimensions authentication response did not include a token."),
           cache, net')
        else
          (.ok token, { token := Option.some token, expires_at := now + TOKEN_TTL }, net')
    | (.ok (.jsonText _), net') => (.error (.attributeError "get"), cache, net')

/-- The ASCII whitespace characters removed by the Python `str.strip()`. -/
def pyWhitespace (c : Char) : Bool :=
  c == ' ' || c == '\t' || c == '\n' || c == '\r' || c == '\x0b' || c == '\x0c'

/-- Python `str.strip()` with no arguments: removes leading and trailing
whitespace. Implemented structurally over the character list so that it
evaluates; CPython also strips a few non-ASCII Unicode space characters,
which no scenario reaches. -/
def pyStrip (s : String) : String :=
  String.mk (((s.data.dropWhile pyWhitespace).reverse.dropWhile pyWhitespace).reverse)

/-- The outcome of one Flask handler invocation: a `(jsonify(...), status)`
response, or an exception escaping the handler body (in which case the
framework, not the handler, produces a generic error page). -/
inductive HandlerOutcome where
  | response (status : Nat) (body : Json)
  | pyError (exc : PyExc)

/-- `dimensions_proxy` (lines 191–234). `reqJson` is the value produced by
`request.get_json(force=True)` (`Json.null` models `None`); `apiKey` and
`now` feed `_get_dimensions_token` as the environment and `time.time` do
in production. A truthy non-string `query` value makes `.strip()` raise
`AttributeError` (line 194), outside every `try` block. -/
def dimensions_proxy (reqJson : Json) (apiKey : Option String) (now : ℤ)
    (net : Net) (cache : TokenCache) : HandlerOutcome × TokenCache × Net :=
  let payload := if reqJson.truthy then reqJson else Json.obj []
  match payload with
  | .obj fields =>
    let q := jsonGet fields "query"
    let q := if q.truthy then q else Json.str ""
    match q with
    | .str s =>
      let query := pyStrip s
      if query == "" then
        (.response 400 (.obj [("error", .str "Missing DSL query payload.")]), cache, net)
      else
        match get_dimensions_token apiKey now net cache with
        | (.error exc, cache', net') =>
            (.response 500 (.obj [("error", .str "Unable to authenticate with Dimensions."),
              ("details", .str exc.pyStr)]), cache', net')
        | (.ok token, cache', net') =>
          match http_post net' DIMENSIONS_DSL_URL (.str query)
              [("Authorization", "JWT " ++ token.pyStr),
               ("Content-Type", "application/json")] 30 with
          | (.error (.dimensionsServiceError status body), net'') =>
              (.response status (.obj [("error", .str "Dimensions DSL request failed."),
                ("details", .str body)]), cache', net'')
          | (.error (.runtimeError msg), net'') =>
              (.response 502 (.obj [("error", .str "Dimensions DSL request failed."),
                ("details", .str msg)]), cache', net'')
          | (.error exc, net'') => (.pyError exc, cache', net'')
          | (.ok (.jsonText v), net'') => (.response 200 v, cache', net'')
          | (.ok (.rawText _), net'') =>
              (.response 502 (.obj [("error", .str "Invalid JSON response from Dimensions")]),
               cache', net'')
    | _ => (.pyError (.attributeError "strip"), cache, net)
  | _ => (.pyError (.attributeError "get"), cache, net)

/-- The period hint table of `_generate_mock_predictions` (lines 115–119). -/
def period_hint (period : String) : String :=
  if period == "all" then "Stable funding outlook"
  else if period == "1" then "Emerging call volume"
  else if period == "5" then "Sustained growth trajectory"
  else "Mixed opportunity signals"

/-- Python `round(x, 2)` on the values reached here: every argument is an
exact multiple of 1/100, where rounding is the identity under any
tie-breaking rule, so floor-based rounding agrees with CPython. -/
def round2 (q : ℚ) : ℚ := (⌊q * 100 + 1/2⌋ : ℚ) / 100

/-- `base_confidence` (line 114). -/
def base_confidence : ℚ := 82/100

/-- `_generate_mock_predictions` (lines 103–188): a deterministic JSON
structure interpolated from `term` and `period` alone. -/
def generate_mock_predictions (term period : String) : Json :=
  Json.obj [
    ("term", .str term),
    ("period", .str period),
    ("predictions", .arr [
      .obj [
        ("rank", .num 1),
        ("challenge", .str ("Transdisciplinary " ++ term ++ " demonstrator programme")),
        ("confidence", .num (round2 (base_confidence + 8/100))),
        ("supporting_metrics", .obj [
          ("publication_gap", .str "Imperial publications down 15% vs. global peers"),
          ("funding_trend", .str (period_hint period ++ " (+11% YoY awards)")),
          ("policy_momentum", .str "Highlighted in UKRI 2030 roadmap")]),
        ("recommended_collaborators", .arr [
          .obj [
            ("name", .str "Centre for Climate Finance"),
            ("profile_url", .str "https://www.imperial.ac.uk/climate-finance")],
          .obj [
            ("name", .str "Institute for Security Science and Technology"),
            ("profile_url", .str "https://www.imperial.ac.uk/isst")]])],
      .obj [
        ("rank", .num 2),
        ("challenge", .str ("Industry partnership on scalable " ++ term ++ " analytics")),
        ("confidence", .num (round2 base_confidence)),
        ("supporting_metrics", .obj [
          ("publication_gap", .str "High citation growth but limited UK leads"),
          ("funding_trend", .str "£24m pipeline identified across Innovate UK"),
          ("talent_indicator", .str "42 active Imperial PIs in adjacent areas")]),
        ("recommended_collaborators", .arr [
          .obj [
            ("name", .str "Data Science Institute"),
            ("profile_url", .str "https://www.imperial.ac.uk/data-science")],
          .obj [
            ("name", .str "Corporate Partnerships Team"),
            ("profile_url", .str "https://www.imperial.ac.uk/enterprise/partners")]])],
      .obj [
        ("rank", .num 3),
        ("challenge", .str ("Pan-European " ++ term ++ " resilience consortium")),
        ("confidence", .num (round2 (base_confidence - 5/100))),
        ("supporting_metrics", .obj [
          ("publication_gap", .str "EU programmes request UK leadership"),
          ("funding_trend", .str "€18m Horizon Europe calls opening Q4"),
          ("collaboration_index", .str "Imperial co-authorship network density at 0.61")]),
        ("recommended_collaborators", .arr [
          .obj [
            ("name", .str "Grantham Institute"),
            ("profile_url", .str "https://www.imperial.ac.uk/grantham")],
          .obj [
            ("name", .str "Imperial Enterprise Lab"),
            ("profile_url", .str "https://www.imperial.ac.uk/enterpriselab")]])]])]

/-- The `period` computation of line 241:
`str(payload.get("period") or "all").strip() or "all"`. -/
def periodOf (fields : List (String × Json)) : String :=
  let p := jsonGet fields "period"
  let p := if p.truthy then p else Json.str "all"
  let period0 := pyStrip p.pyStr
  if period0 == "" then "all" else period0

/-- `opportunity_predictions` (lines 237–265): no network, no clock, no
cache — the outcome is a function of the request body alone. -/
def opportunity_predictions (reqJson : Json) : HandlerOutcome :=
  let payload := if reqJson.truthy then reqJson else Json.obj []
  match payload with
  | .obj fields =>
    let t := jsonGet fields "term"
    let t := if t.truthy then t else Json.str ""
    match t with
    | .str s =>
      let term := pyStrip s
      let period := periodOf fields
      if term == "" then
        .response 400 (.obj [("error", .str "Missing required field: term")])
      else
        .response 200 (generate_mock_predictions term period)
    | _ => .pyError (.attributeError "strip")
  | _ => .pyError (.attributeError "get")

/-! Concrete states used to instantiate the theorems. -/

/-- A network whose script never grants a successful response: any call
that does happen is visible both in the log and in the outcome. -/
def noNet : Net := ⟨fun _ => .urlError "unreachable", []⟩

/-- A cache holding a live token (expiry 100, so live for any clock below
100). -/
def hitCache : TokenCache := { token := some (.str "tok"), expires_at := 100 }

/-- The scripted auth endpoint of the token-cache scenario: the n-th call
(0-based) answers with a JSON object binding token-(n+1), like the
StubHttpPost fake of the unit tests. -/
def tokenScript : Nat → NetResult :=
  fun n => .ok (.jsonText (.obj [("token", .str ("token-" ++ toString (n + 1)))]))

/-- A fresh network running `tokenScript`. -/
def tokenNet0 : Net := ⟨tokenScript, []⟩

/-- The network state after the first call of the token-cache scenario:
exactly one auth request has been logged. -/
def tokenNet1 : Net :=
  ⟨tokenScript, [⟨DIMENSIONS_AUTH_URL, .jsonVal (.obj [("key", .str "secret")]),
    [("Content-Type", "application/json")], 10⟩]⟩

/-- First call of the token-cache scenario: clock 0, empty cache. -/
def scenarioStep1 : Except PyExc Json × TokenCache × Net :=
  get_dimensions_token (some "secret") 0 tokenNet0 initialCache

/-- Second call of the scenario: clock 5, state from the first call. -/
def scenarioStep2 : Except PyExc Json × TokenCache × Net :=
  get_dimensions_token (some "secret") 5 scenarioStep1.2.2 scenarioStep1.2.1

/-- Third call of the scenario: clock 4000, state from the second call. -/
def scenarioStep3 : Except PyExc Json × TokenCache × Net :=
  get_dimensions_token (some "secret") 4000 scenarioStep2.2.2 scenarioStep2.2.1

/-- The fields of a response body when it is a JSON object. -/
def responseBodyFields : HandlerOutcome → List (String × Json)
  | .response _ (.obj fields) => fields
  | _ => []

/-- Field access on a JSON object value. -/
def jsonField (j : Json) (key : String) : Json :=
  match j with
  | .obj fields => jsonGet fields key
  | _ => Json.null

/-- The number of entries under the key `predictions` of a JSON object. -/
def predictionsLength (j : Json) : Nat :=
  match jsonField j "predictions" with
  | .arr elems => elems.length
  | _ => 0

/-! Theorems. -/

/-- C2: with a fake clock and a scripted auth endpoint handing out
token-1, token-2, … on successive calls, three calls of
`_get_dimensions_token` at times 0, 5 and 4000 under the fixed 50-minute
TTL perform exactly two authentication calls and return token-1, token-1
and token-2: the first two calls share the cached token, the third
re-authenticates after expiry. -/
theorem token_cache_scenario :
    scenarioStep1.1 = .ok (.str "token-1")
    ∧ scenarioStep2.1 = .ok (.str "token-1")
    ∧ scenarioStep3.1 = .ok (.str "token-2")
    ∧ scenarioStep3.2.2.log.length = 2
    ∧ scenarioStep3.2.2.log.map HttpCall.url
        = [DIMENSIONS_AUTH_URL, DIMENSIONS_AUTH_URL] :=
  ⟨rfl, rfl, rfl, rfl, rfl⟩

/-- C1 counterexample: a cache state with a live token (expiry 100, clock
0) and no API key configured. The claim says the cached token is returned
with the key requirement checked only on a cache miss; the code checks the
key first and fails with the configuration error instead. -/
theorem token_fast_path_counterexample :
    (get_dimensions_token none 0 noNet hitCache).1
      = .error (.runtimeError
          "Dimensions API key is not configured. Set DIMENSIONS_API_KEY.")
    ∧ ¬ (get_dimensions_token none 0 noNet hitCache).1 = .ok (.str "tok") :=
  ⟨rfl, fun h => Except.noConfusion h⟩

/-- Helper: the cache-hit fast path of `_get_dimensions_token` — with a
configured key and a live truthy token, the call returns `str(token)` and
touches neither the cache nor the network. -/
theorem get_token_fast_path (key : String) (cache : TokenCache) (t : Json)
    (now : ℤ) (net : Net) (hkey : key ≠ "") (htok : cache.token = some t)
    (htruthy : t.truthy = true) (hlive : now < cache.expires_at) :
    get_dimensions_token (some key) now net cache
      = (.ok (.str t.pyStr), cache, net) := by
  have h1 : envTruthy (some key) = true := by simp [envTruthy, hkey]
  have h2 : cachedTokenLive cache now = true := by
    simp [cachedTokenLive, htok, htruthy, hlive]
  simp [get_dimensions_token, h1, h2, htok]

/-- C1 amended: when the API key is configured (non-empty), every cache
state holding a truthy token whose expiry lies strictly after the clock is
a fast path — the cached token is returned with no network call and no
cache mutation. The key requirement, however, is checked before the cache,
so with the key absent the call fails with the configuration error (still
without any network call) even when a live cached token exists. -/
theorem token_fast_path_amended (key : String) (cache : TokenCache)
    (t : Json) (now : ℤ) (net : Net) (hkey : key ≠ "")
    (htok : cache.token = some t) (htruthy : t.truthy = true)
    (hlive : now < cache.expires_at) :
    get_dimensions_token (some key) now net cache = (.ok (.str t.pyStr), cache, net)
    ∧ ∀ (now2 : ℤ) (net2 : Net) (cache2 : TokenCache),
        get_dimensions_token none now2 net2 cache2
          = (.error (.runtimeError
              "Dimensions API key is not configured. Set DIMENSIONS_API_KEY."),
             cache2, net2) := by
  refine ⟨get_token_fast_path key cache t now net hkey htok htruthy hlive, ?_⟩
  intro now2 net2 cache2
  simp [get_dimensions_token, envTruthy]

/-- C1 amended, instantiated: key k, cache `hitCache`, clock 0. -/
theorem token_fast_path_amended_witness :
    get_dimensions_token (some "k") 0 noNet hitCache
      = (.ok (.str "tok"), hitCache, noNet) :=
  (token_fast_path_amended "k" hitCache (.str "tok") 0 noNet (by decide) rfl rfl
    (by norm_num [hitCache])).1

/-- Helper: `_http_post` appends exactly one entry (its own request) to
the network log, whatever the outcome of the call. -/
theorem http_post_log_length (net : Net) (url : String) (p : Payload)
    (hs : List (String × String)) (t : Nat) :
    (http_post net url p hs t).2.log.length = net.log.length + 1 := by
  unfold http_post
  rcases net.script net.log.length <;> simp

/-- C10: every failing call of `_get_dimensions_token` — configuration
error, wrapped authentication service error, network error, invalid-JSON
response or missing token field — leaves the token cache exactly as it
was: `token` and `expires_at` are mutated only after every validation
step has succeeded. -/
theorem token_failure_preserves_cache (apiKey : Option String) (now : ℤ)
    (net : Net) (cache : TokenCache) (e : PyExc)
    (cache' : TokenCache) (net' : Net)
    (h : get_dimensions_token apiKey now net cache = (.error e, cache', net')) :
    cache' = cache := by
  unfold get_dimensions_token at h
  split at h
  · simp_all [Prod.mk.injEq]
  · split at h
    · simp_all [Prod.mk.injEq]
    · split at h
      · simp_all [Prod.mk.injEq]
      · simp_all [Prod.mk.injEq]
      · simp_all [Prod.mk.injEq]
      · simp only [] at h
        split at h
        · simp_all [Prod.mk.injEq]
        · simp_all [Prod.mk.injEq]
      · simp_all [Prod.mk.injEq]

/-- C10 instantiated: the configuration-error failure (no API key) leaves
the live cache untouched. -/
theorem token_failure_preserves_cache_witness : hitCache = hitCache :=
  token_failure_preserves_cache none 0 noNet hitCache
    (.runtimeError "Dimensions API key is not configured. Set DIMENSIONS_API_KEY.")
    hitCache noNet rfl

/-- C9: whenever `_get_dimensions_token` mutates the cache it stores a
token together with an expiry strictly in the future at the moment it is
set (set time plus the positive TTL), and a cached token is only returned
(success without network activity) after re-validating that the current
time lies strictly before the stored expiry. -/
theorem token_cache_invariant (apiKey : Option String) (now : ℤ)
    (net : Net) (cache : TokenCache) (r : Except PyExc Json)
    (cache' : TokenCache) (net' : Net)
    (h : get_dimensions_token apiKey now net cache = (r, cache', net')) :
    (cache' = cache ∨ ∃ tok, cache'.token = some tok ∧ tok.truthy = true
        ∧ cache'.expires_at = now + TOKEN_TTL ∧ now < cache'.expires_at)
    ∧ (∀ v, r = .ok v → net'.log = net.log → now < cache.expires_at) := by
  unfold get_dimensions_token at h
  split at h
  · -- missing API key: nothing changes
    simp only [Prod.mk.injEq] at h
    refine ⟨Or.inl h.2.1.symm, fun v hv _ => ?_⟩
    rw [← h.1] at hv
    exact Except.noConfusion hv
  · split at h
    · -- fast path: the guard of line 82 holds
      rename_i hlive
      simp only [Prod.mk.injEq] at h
      refine ⟨Or.inl h.2.1.symm, fun v _ _ => ?_⟩
      unfold cachedTokenLive at hlive
      rcases htok : cache.token with _ | t <;> rw [htok] at hlive
      · exact Bool.noConfusion hlive
      · simp only [Bool.and_eq_true, decide_eq_true_eq] at hlive
        exact hlive.2
    · -- refresh path: case split over the auth call outcome
      split at h
      all_goals try simp only [] at h
      all_goals try split at h
      all_goals
        first
        | (simp only [Prod.mk.injEq] at h
           refine ⟨Or.inl h.2.1.symm, fun v hv _ => ?_⟩
           rw [← h.1] at hv
           exact Except.noConfusion hv)
        | (rename_i fields netA heq hguard
           simp only [Prod.mk.injEq] at h
           obtain ⟨h1, h2, h3⟩ := h
           subst h1; subst h2; subst h3
           have htr : (jsonGet fields "token").truthy = true := by
             simpa using hguard
           refine ⟨Or.inr ⟨jsonGet fields "token", rfl, htr, rfl, ?_⟩,
             fun v _ hlog => ?_⟩
           · show now < now + TOKEN_TTL
             have hpos : (0 : ℤ) < TOKEN_TTL := by norm_num [TOKEN_TTL]
             linarith
           · have hlenA := congrArg (fun x => x.2.log.length) heq
             simp only [http_post_log_length] at hlenA
             have hlenB := congrArg List.length hlog
             omega)

/-- C9 instantiated at the first refresh of the token-cache scenario. -/
theorem token_cache_invariant_witness :
    ((⟨some (Json.str "token-1"), 0 + TOKEN_TTL⟩ : TokenCache) = initialCache
      ∨ ∃ tok, (some (Json.str "token-1") : Option Json) = some tok
          ∧ tok.truthy = true ∧ (0 + TOKEN_TTL : ℤ) = 0 + TOKEN_TTL
          ∧ (0 : ℤ) < 0 + TOKEN_TTL)
    ∧ (∀ v, (Except.ok (Json.str "token-1") : Except PyExc Json) = .ok v →
        tokenNet1.log = tokenNet0.log → (0 : ℤ) < initialCache.expires_at) :=
  token_cache_invariant (some "secret") 0 tokenNet0 initialCache
    (.ok (.str "token-1")) ⟨some (.str "token-1"), 0 + TOKEN_TTL⟩ tokenNet1 rfl

/-- C3: for every request payload whose query field is absent, None,
empty, or whitespace-only after trimming, `dimensions_proxy` returns the
400 missing-query response and makes no network call — neither the auth
call nor the forwarding call happens (the network state is returned
untouched), and the cache is untouched too. -/
theorem missing_query_no_network (fields : List (String × Json))
    (apiKey : Option String) (now : ℤ) (net : Net) (cache : TokenCache)
    (h : jsonGet fields "query" = Json.null
       ∨ ∃ s, jsonGet fields "query" = Json.str s ∧ pyStrip s = "") :
    dimensions_proxy (.obj fields) apiKey now net cache
      = (.response 400 (.obj [("error", .str "Missing DSL query payload.")]),
         cache, net) := by
  have hpayload : (if (Json.obj fields).truthy then Json.obj fields else Json.obj [])
      = Json.obj fields := by
    by_cases hf : fields.isEmpty
    · simp [Json.truthy, hf, List.isEmpty_iff.mp hf]
    · simp [Json.truthy, hf]
  unfold dimensions_proxy
  rw [hpayload]
  have h0 : pyStrip "" = "" := rfl
  rcases h with hnull | ⟨s, hs, htrim⟩
  · simp [hnull, Json.truthy, h0]
  · by_cases hse : s = ""
    · simp [hs, hse, Json.truthy, h0]
    · simp [hs, Json.truthy, hse, htrim]

/-- C3 instantiated: a whitespace-only query. -/
theorem missing_query_no_network_witness :
    dimensions_proxy (.obj [("query", .str "   ")]) none 0 noNet initialCache
      = (.response 400 (.obj [("error", .str "Missing DSL query payload.")]),
         initialCache, noNet) :=
  missing_query_no_network [("query", .str "   ")] none 0 noNet initialCache
    (Or.inr ⟨"   ", rfl, rfl⟩)

/-- C4: with a configured key, a live cached token T, and a forwarding
call whose body parses as JSON value V, `dimensions_proxy` replies with
status 200 and body exactly V, and the single outbound request goes to
the DSL URL carrying the header Authorization = JWT T and a timeout of
30. -/
theorem proxy_forwards_and_relays (key tok q : String) (V : Json)
    (now : ℤ) (net : Net) (cache : TokenCache)
    (hkey : key ≠ "") (htok : cache.token = some (.str tok)) (htokne : tok ≠ "")
    (hlive : now < cache.expires_at) (hq : pyStrip q ≠ "")
    (hlog : net.log = []) (hscript : net.script 0 = .ok (.jsonText V)) :
    dimensions_proxy (.obj [("query", .str q)]) (some key) now net cache
      = (.response 200 V, cache,
         { net with log := [⟨DIMENSIONS_DSL_URL, .str (pyStrip q),
             [("Authorization", "JWT " ++ tok), ("Content-Type", "application/json")],
             30⟩] }) := by
  have hqne : q ≠ "" := fun he => hq (by rw [he]; rfl)
  have htk := get_token_fast_path key cache (.str tok) now net hkey htok
    (by simpa [Json.truthy] using htokne) hlive
  unfold dimensions_proxy http_post
  simp [Json.truthy, Json.pyStr, jsonGet, hqne, hq, htk, requestHeaders,
    dictUpdate, hlog, hscript]

/-- C4 instantiated: token tok from the live cache, query search, upstream
echoing a results object. -/
theorem proxy_forwards_and_relays_witness :
    dimensions_proxy (.obj [("query", .str "search")]) (some "k") 0
      (⟨fun _ => .ok (.jsonText (.obj [("results", .arr [.num 1, .num 2, .num 3])])),
        []⟩ : Net) hitCache
      = (.response 200 (.obj [("results", .arr [.num 1, .num 2, .num 3])]), hitCache,
         ⟨fun _ => .ok (.jsonText (.obj [("results", .arr [.num 1, .num 2, .num 3])])),
          [⟨DIMENSIONS_DSL_URL, .str "search",
            [("Authorization", "JWT tok"), ("Content-Type", "application/json")],
            30⟩]⟩) :=
  proxy_forwards_and_relays "k" "tok" "search"
    (.obj [("results", .arr [.num 1, .num 2, .num 3])]) 0
    ⟨fun _ => .ok (.jsonText (.obj [("results", .arr [.num 1, .num 2, .num 3])])), []⟩
    hitCache (by decide) rfl (by decide) (by norm_num [hitCache]) (by decide) rfl rfl

/-- C5: error translation of the forwarding call: a service error with
status S and body B is relayed as status S with B under `details`; a
network error yields the fixed 502 bad-gateway response carrying the
network-error message; a successful call whose body does not parse as
JSON yields 502 with the invalid-JSON error body. -/
theorem proxy_error_translation (key tok q : String) (now : ℤ)
    (cache : TokenCache) (hkey : key ≠ "") (htok : cache.token = some (.str tok))
    (htokne : tok ≠ "") (hlive : now < cache.expires_at) (hq : pyStrip q ≠ "") :
    (∀ (net : Net) (S : Nat) (B : String), net.log = [] →
       net.script 0 = .httpError S B →
       (dimensions_proxy (.obj [("query", .str q)]) (some key) now net cache).1
         = .response S (.obj [("error", .str "Dimensions DSL request failed."),
             ("details", .str B)]))
    ∧ (∀ (net : Net) (R : String), net.log = [] → net.script 0 = .urlError R →
       (dimensions_proxy (.obj [("query", .str q)]) (some key) now net cache).1
         = .response 502 (.obj [("error", .str "Dimensions DSL request failed."),
             ("details", .str ("Network error contacting " ++ DIMENSIONS_DSL_URL
               ++ ": " ++ R))]))
    ∧ (∀ (net : Net) (raw : String), net.log = [] →
       net.script 0 = .ok (.rawText raw) →
       (dimensions_proxy (.obj [("query", .str q)]) (some key) now net cache).1
         = .response 502 (.obj [("error",
             .str "Invalid JSON response from Dimensions")])) := by
  have hqne : q ≠ "" := fun he => hq (by rw [he]; rfl)
  have htk := fun net => get_token_fast_path key cache (.str tok) now net hkey htok
    (by simpa [Json.truthy] using htokne) hlive
  refine ⟨?_, ?_, ?_⟩
  · intro net S B hlog hscript
    unfold dimensions_proxy http_post
    simp [Json.truthy, Json.pyStr, jsonGet, hqne, hq, htk net, requestHeaders,
      dictUpdate, hlog, hscript]
  · intro net R hlog hscript
    unfold dimensions_proxy http_post
    simp [Json.truthy, Json.pyStr, jsonGet, hqne, hq, htk net, requestHeaders,
      dictUpdate, hlog, hscript]
  · intro net raw hlog hscript
    unfold dimensions_proxy http_post
    simp [Json.truthy, Json.pyStr, jsonGet, hqne, hq, htk net, requestHeaders,
      dictUpdate, hlog, hscript]

/-- C5 instantiated: upstream 403 relayed with its body, a refused
connection mapped to 502, and an HTML body mapped to the invalid-JSON
502. -/
theorem proxy_error_translation_witness :
    (dimensions_proxy (.obj [("query", .str "q1")]) (some "k") 0
        (⟨fun _ => .httpError 403 "forbidden", []⟩ : Net) hitCache).1
      = .response 403 (.obj [("error", .str "Dimensions DSL request failed."),
          ("details", .str "forbidden")])
    ∧ (dimensions_proxy (.obj [("query", .str "q1")]) (some "k") 0
        (⟨fun _ => .urlError "refused", []⟩ : Net) hitCache).1
      = .response 502 (.obj [("error", .str "Dimensions DSL request failed."),
          ("details", .str ("Network error contacting " ++ DIMENSIONS_DSL_URL
            ++ ": refused"))])
    ∧ (dimensions_proxy (.obj [("query", .str "q1")]) (some "k") 0
        (⟨fun _ => .ok (.rawText "<html>"), []⟩ : Net) hitCache).1
      = .response 502 (.obj [("error",
          .str "Invalid JSON response from Dimensions")]) :=
  ⟨(proxy_error_translation "k" "tok" "q1" 0 hitCache (by decide) rfl (by decide)
      (by norm_num [hitCache]) (by decide)).1
      ⟨fun _ => .httpError 403 "forbidden", []⟩ 403 "forbidden" rfl rfl,
   (proxy_error_translation "k" "tok" "q1" 0 hitCache (by decide) rfl (by decide)
      (by norm_num [hitCache]) (by decide)).2.1
      ⟨fun _ => .urlError "refused", []⟩ "refused" rfl rfl,
   (proxy_error_translation "k" "tok" "q1" 0 hitCache (by decide) rfl (by decide)
      (by norm_num [hitCache]) (by decide)).2.2
      ⟨fun _ => .ok (.rawText "<html>"), []⟩ "<html>" rfl rfl⟩

/-- Helper: the four possible outcomes of `_http_post`. -/
theorem http_post_cases (net : Net) (url : String) (p : Payload)
    (hs : List (String × String)) (t : Nat) :
    (∃ v n, http_post net url p hs t = (.ok (.jsonText v), n))
    ∨ (∃ s n, http_post net url p hs t = (.ok (.rawText s), n))
    ∨ (∃ S B n, http_post net url p hs t = (.error (.dimensionsServiceError S B), n))
    ∨ (∃ m n, http_post net url p hs t = (.error (.runtimeError m), n)) := by
  rcases hres : net.script net.log.length with b | ⟨S, B⟩ | r
  · rcases b with v | s
    · exact Or.inl ⟨v, _, by unfold http_post; rw [hres]⟩
    · exact Or.inr (Or.inl ⟨s, _, by unfold http_post; rw [hres]⟩)
  · exact Or.inr (Or.inr (Or.inl ⟨S, B, _, by unfold http_post; rw [hres]⟩))
  · exact Or.inr (Or.inr (Or.inr ⟨_, _, by unfold http_post; rw [hres]⟩))

/-- C6 counterexample: the 400 missing-query response body carries an
`error` field but no `details` field, refuting the claim that every
handler error response carries both. -/
theorem error_body_details_counterexample :
    (dimensions_proxy (.obj []) none 0 noNet initialCache).1
      = .response 400 (.obj [("error", .str "Missing DSL query payload.")])
    ∧ hasKey (responseBodyFields
        (dimensions_proxy (.obj []) none 0 noNet initialCache).1) "error" = true
    ∧ hasKey (responseBodyFields
        (dimensions_proxy (.obj []) none 0 noNet initialCache).1) "details" = false :=
  ⟨rfl, rfl, rfl⟩

/-- C6 amended: every non-200 response produced by the two handlers has a
JSON object body carrying an `error` summary field, and every 500
authentication-failure response also carries a `details` field with the
underlying message; the 400 validation responses and the 502 invalid-JSON
response carry only the `error` field. -/
theorem error_body_shape (reqJson : Json) (apiKey : Option String) (now : ℤ)
    (net : Net) (cache : TokenCache) :
    (∀ S b cache' net',
        dimensions_proxy reqJson apiKey now net cache
          = (.response S b, cache', net') →
        S ≠ 200 →
        ∃ fields, b = .obj fields ∧ hasKey fields "error" = true
          ∧ (S = 500 → hasKey fields "details" = true))
    ∧ (∀ S b, opportunity_predictions reqJson = .response S b → S ≠ 200 →
        ∃ fields, b = .obj fields ∧ hasKey fields "error" = true) := by
  constructor
  · intro S b cache' net' h hS
    unfold dimensions_proxy at h
    iterate 6
      all_goals try simp only [] at h
      all_goals try split at h
    all_goals
      first
      | (exfalso
         simp only [Prod.mk.injEq] at h
         exact HandlerOutcome.noConfusion h.1)
      | (simp only [Prod.mk.injEq] at h
         obtain ⟨h1, h2, h3⟩ := h
         obtain ⟨hS0, hb0⟩ := HandlerOutcome.response.inj h1
         subst hS0
         subst hb0
         first
         | exact absurd rfl hS
         | exact ⟨_, rfl, rfl, fun _ => rfl⟩
         | exact ⟨_, rfl, rfl, fun h500 => absurd h500 (by simp)⟩)
  · intro S b h hS
    unfold opportunity_predictions at h
    iterate 4
      all_goals try simp only [] at h
      all_goals try split at h
    all_goals
      first
      | exact HandlerOutcome.noConfusion h
      | (obtain ⟨hS0, hb0⟩ := HandlerOutcome.response.inj h
         subst hS0
         subst hb0
         first
         | exact absurd rfl hS
         | exact ⟨_, rfl, rfl⟩)

/-- C6 amended, instantiated at the missing-term 400 response of the
prediction handler. -/
theorem error_body_shape_witness :
    ∃ fields, Json.obj [("error", Json.str "Missing required field: term")]
        = Json.obj fields ∧ hasKey fields "error" = true :=
  (error_body_shape (.obj []) none 0 noNet initialCache).2 400
    (.obj [("error", .str "Missing required field: term")]) rfl (by simp)

/-- C7 counterexample: a truthy non-string query value (the number 5)
makes `.strip()` raise an `AttributeError` that escapes the handler body,
refuting the claim that every payload yields one of the defined JSON
responses. -/
theorem proxy_exception_counterexample :
    (dimensions_proxy (.obj [("query", .num 5)]) (some "k") 0 noNet
        initialCache).1
      = .pyError (.attributeError "strip") := rfl

/-- C7 amended: for every object payload whose query field is a string or
is falsy (absent, None, empty, zero, empty containers), the query handler
terminates with one of its defined JSON responses — no exception escapes;
a truthy non-string query instead raises an attribute error that the
handler body does not catch. -/
theorem proxy_total_on_string_or_falsy_query (fields : List (String × Json))
    (apiKey : Option String) (now : ℤ) (net : Net) (cache : TokenCache)
    (h : (∃ s, jsonGet fields "query" = .str s)
       ∨ (jsonGet fields "query").truthy = false) :
    ∃ S b cache' net',
      dimensions_proxy (.obj fields) apiKey now net cache
        = (.response S b, cache', net') := by
  have hpayload : (if (Json.obj fields).truthy then Json.obj fields else Json.obj [])
      = Json.obj fields := by
    by_cases hf : fields.isEmpty
    · simp [Json.truthy, hf, List.isEmpty_iff.mp hf]
    · simp [Json.truthy, hf]
  have h0 : pyStrip "" = "" := rfl
  have hfalsy : (jsonGet fields "query").truthy = false →
      ∃ S b cache' net',
        dimensions_proxy (.obj fields) apiKey now net cache
          = (.response S b, cache', net') := by
    intro hfal
    refine ⟨400, .obj [("error", .str "Missing DSL query payload.")], cache, net, ?_⟩
    unfold dimensions_proxy
    rw [hpayload]
    simp [hfal, h0]
  rcases h with ⟨s, hs⟩ | hfal
  · by_cases hse : s = ""
    · exact hfalsy (by simp [hs, hse, Json.truthy])
    · by_cases hq : pyStrip s = ""
      · refine ⟨400, .obj [("error", .str "Missing DSL query payload.")],
          cache, net, ?_⟩
        unfold dimensions_proxy
        rw [hpayload]
        simp [hs, Json.truthy, hse, hq]
      · rcases h1 : get_dimensions_token apiKey now net cache with ⟨r, cacheA, netA⟩
        rcases r with e | tokenv
        · refine ⟨500, .obj [("error", .str "Unable to authenticate with Dimensions."),
            ("details", .str e.pyStr)], cacheA, netA, ?_⟩
          unfold dimensions_proxy
          rw [hpayload]
          simp [hs, Json.truthy, hse, hq, h1]
        · rcases http_post_cases netA DIMENSIONS_DSL_URL (.str (pyStrip s))
              [("Authorization", "JWT " ++ tokenv.pyStr),
               ("Content-Type", "application/json")] 30 with
            ⟨v, n, h2⟩ | ⟨raw, n, h2⟩ | ⟨S, B, n, h2⟩ | ⟨m, n, h2⟩
          · refine ⟨200, v, cacheA, n, ?_⟩
            unfold dimensions_proxy
            rw [hpayload]
            simp [hs, Json.truthy, hse, hq, h1, h2]
          · refine ⟨502, .obj [("error", .str "Invalid JSON response from Dimensions")],
              cacheA, n, ?_⟩
            unfold dimensions_proxy
            rw [hpayload]
            simp [hs, Json.truthy, hse, hq, h1, h2]
          · refine ⟨S, .obj [("error", .str "Dimensions DSL request failed."),
              ("details", .str B)], cacheA, n, ?_⟩
            unfold dimensions_proxy
            rw [hpayload]
            simp [hs, Json.truthy, hse, hq, h1, h2]
          · refine ⟨502, .obj [("error", .str "Dimensions DSL request failed."),
              ("details", .str m)], cacheA, n, ?_⟩
            unfold dimensions_proxy
            rw [hpayload]
            simp [hs, Json.truthy, hse, hq, h1, h2]
  · exact hfalsy hfal

/-- C7 amended, instantiated at the empty payload. -/
theorem proxy_total_witness :
    ∃ S b cache' net',
      dimensions_proxy (.obj []) (some "k") 0 noNet initialCache
        = (.response S b, cache', net') :=
  proxy_total_on_string_or_falsy_query [] (some "k") 0 noNet initialCache
    (Or.inr rfl)

/-- C8: the prediction handler reads no clock, cache or network (its
signature takes none). The hypothesis covers a term field that is the
string s, or a falsy term field (absent, None, empty — then s is the
empty string the `or` of line 240 substitutes). For a term non-empty
after trimming the handler returns 200 with the deterministic mock
payload, a function of the term and period alone, whose predictions list
has exactly 3 entries and which echoes the trimmed term and the period
(defaulting to all when absent); for a term absent or empty after
trimming it returns the 400 missing-term response. -/
theorem predictions_shape (s : String) (fields : List (String × Json))
    (hterm : jsonGet fields "term" = .str s
       ∨ ((jsonGet fields "term").truthy = false ∧ s = "")) :
    (pyStrip s = "" →
       opportunity_predictions (.obj fields)
         = .response 400 (.obj [("error", .str "Missing required field: term")]))
    ∧ (pyStrip s ≠ "" →
       opportunity_predictions (.obj fields)
         = .response 200 (generate_mock_predictions (pyStrip s) (periodOf fields)))
    ∧ (∀ t p : String,
        predictionsLength (generate_mock_predictions t p) = 3
        ∧ jsonField (generate_mock_predictions t p) "term" = .str t
        ∧ jsonField (generate_mock_predictions t p) "period" = .str p) := by
  have hpayload : (if (Json.obj fields).truthy then Json.obj fields else Json.obj [])
      = Json.obj fields := by
    by_cases hf : fields.isEmpty
    · simp [Json.truthy, hf, List.isEmpty_iff.mp hf]
    · simp [Json.truthy, hf]
  have h0 : pyStrip "" = "" := rfl
  rcases hterm with hterm | ⟨hfal, hse0⟩
  · refine ⟨?_, ?_, fun t p => ⟨rfl, rfl, rfl⟩⟩
    · intro htrim
      unfold opportunity_predictions
      rw [hpayload]
      by_cases hse : s = ""
      · simp [hterm, hse, Json.truthy, h0]
      · simp [hterm, Json.truthy, hse, htrim]
    · intro htrim
      have hse : s ≠ "" := fun he => htrim (by rw [he]; exact h0)
      unfold opportunity_predictions
      rw [hpayload]
      simp [hterm, Json.truthy, hse, htrim]
  · subst hse0
    refine ⟨?_, ?_, fun t p => ⟨rfl, rfl, rfl⟩⟩
    · intro _
      unfold opportunity_predictions
      rw [hpayload]
      simp [hfal, h0]
    · intro htrim
      exact absurd h0 htrim

/-- C8 instantiated: term AI with period 5 yields the 200 mock payload
with 3 entries, and the absent-term payload of the repo test (only a
period) yields the 400 missing-term response. -/
theorem predictions_shape_witness :
    (opportunity_predictions (.obj [("term", .str "AI"), ("period", .str "5")])
      = .response 200 (generate_mock_predictions "AI" "5"))
    ∧ predictionsLength (generate_mock_predictions "AI" "5") = 3
    ∧ (opportunity_predictions (.obj [("period", .str "5")])
      = .response 400 (.obj [("error", .str "Missing required field: term")])) :=
  ⟨(predictions_shape "AI" [("term", .str "AI"), ("period", .str "5")]
      (Or.inl rfl)).2.1 (by decide),
   ((predictions_shape "AI" [("term", .str "AI"), ("period", .str "5")]
      (Or.inl rfl)).2.2 "AI" "5").1,
   (predictions_shape "" [("period", .str "5")] (Or.inr ⟨rfl, rfl⟩)).1 rfl⟩

end ServerEdited
